import Mathlib

/-!
# Verification of `autokeras/utils/utils.py`

A shallow embedding of the utility module of the repository, together with
theorems settling the specified behavioural claims.

Conventions of the embedding:
* Python's `None` becomes `Option.none`.
* A raised exception becomes an explicit error constructor of a result type.
* A `tf.data.Dataset` is modelled as a list of batches (each batch a list of
  elements); `unbatch()` flattens, `batch(n)` re-partitions into chunks of
  size `n`.
* `warnings.warn` and `print` become explicit lists of emitted messages.
-/

namespace AutokerasUtils

/-! ## Nested input structures and `validate_num_inputs` -/

/-- A nested structure of inputs, as handled by `tf.nest.flatten`:
either a single leaf value or an arbitrarily nested list of structures. -/
inductive Nested where
  | leaf (v : Nat)
  | node (children : List Nested)

mutual

/-- `tf.nest.flatten`: flatten a nested structure into the list of its
leaves, left to right. -/
def Nested.flatten : Nested → List Nat
  | .leaf v => [v]
  | .node cs => Nested.flattenList cs

/-- Flatten each structure in a list and concatenate the results. -/
def Nested.flattenList : List Nested → List Nat
  | [] => []
  | c :: cs => Nested.flatten c ++ Nested.flattenList cs

end

/-- The error message of `validate_num_inputs`, from the format string
of the source. -/
def numInputsMessage (num len : Nat) : String :=
  "Expected " ++ toString num ++ " elements in the inputs list " ++
    "but received " ++ toString len ++ " inputs."

/-- `validate_num_inputs(inputs, num)`: flatten `inputs`; raise `ValueError`
when the flattened length differs from `num`, else return normally. -/
def validate_num_inputs (inputs : Nested) (num : Nat) : Except String Unit :=
  let flat := inputs.flatten
  if flat.length = num then
    Except.ok ()
  else
    Except.error (numInputsMessage num flat.length)

/-! ## Hyperparameter bridging: `get_hyperparameter` and `add_to_hp` -/

/-- `get_hyperparameter(value, hp, dtype)`: return `hp` when `value` is
`None`, else return `value`.  The `dtype` argument is accepted but never
read. -/
def get_hyperparameter {α δ : Type} (value : Option α) (hp : α) (_dtype : δ) :
    α :=
  match value with
  | none => hp
  | some v => v

/-- A keras-tuner hyperparameter record: its concrete class name, its own
name, and its configuration dictionary (which contains the
`conditions` and `name` entries among others). -/
structure HPRecord where
  className : String
  hpName : String
  config : List (String × Nat)
deriving DecidableEq

/-- A value passed to `add_to_hp`: either a plain (non-hyperparameter)
value, or a hyperparameter record instance. -/
inductive HPValue where
  | plain (v : Nat)
  | record (r : HPRecord)
deriving DecidableEq

/-- An observable operation performed on the destination registry `hps`:
an attribute lookup of a constructor by class name, or an invocation of
that constructor with a resolved name and remaining keyword arguments. -/
inductive RegistryOp where
  | getattrOp (className : String)
  | callOp (className : String) (name : String)
      (kwargs : List (String × Nat))
deriving DecidableEq

/-- The destination registry `hps`: resolving a constructor by class name
and invoking it yields a hyperparameter handle. -/
def Registry : Type := String → String → List (String × Nat) → HPValue

/-- `add_to_hp(hp, hps, name)`: a non-hyperparameter value is returned
unchanged; a hyperparameter record has its configuration extracted, the
`conditions` and `name` entries dropped, the constructor resolved on `hps`
by the record's class name, and that constructor invoked with the resolved
name (the explicit `name` argument winning over the record's own name).
The second component records every operation performed on `hps`. -/
def add_to_hp (hp : HPValue) (hps : Registry) (name : Option String) :
    HPValue × List RegistryOp :=
  match hp with
  | .plain v => (.plain v, [])
  | .record r =>
      let resolvedName := name.getD r.hpName
      let kwargs := r.config.filter
        (fun kv => kv.1 ≠ "conditions" ∧ kv.1 ≠ "name")
      (hps r.className resolvedName kwargs,
        [.getattrOp r.className, .callOp r.className resolvedName kwargs])

/-! ## Datasets and `run_with_adaptive_batch_size` -/

/-- A `tf.data.Dataset`, modelled as the list of its batches, each batch
a list of elements. -/
abbrev Dataset : Type := List (List Nat)

/-- `Dataset.unbatch()`: flatten the batches back into a stream of
elements. -/
def Dataset.unbatch (d : Dataset) : List Nat := d.flatten

/-- `batch(n)` on an unbatched stream: partition into consecutive chunks
of size `n` (the last chunk possibly shorter). -/
def batchStream (n : Nat) (l : List Nat) : Dataset :=
  if h : l = [] ∨ n = 0 then []
  else
    l.take n :: batchStream n (l.drop n)
termination_by l.length
decreasing_by
  simp only [not_or] at h
  have hl : l ≠ [] := h.1
  have hn : n ≠ 0 := h.2
  have : l.length - n < l.length := by
    have : 0 < l.length := List.length_pos.mpr hl
    omega
  simpa using this

/-- `x.unbatch().batch(n)`: re-partition a dataset into batches of the
new size `n`. -/
def rebatch (n : Nat) (d : Dataset) : Dataset := batchStream n d.unbatch

/-- The outcome of one invocation of `func` inside the retry loop:
a normal result, a `tf.errors.ResourceExhaustedError`, or any other
exception. -/
inductive ExecResult where
  | ok (history : Nat)
  | resourceExhausted (e : Nat)
  | failure (e : Nat)
deriving DecidableEq

/-- The callable supplied to `run_with_adaptive_batch_size`: it receives
the current primary dataset `x` and the current validation dataset (the
remaining keyword arguments are fixed over the whole call and are absorbed
into the closure). -/
abbrev Func : Type := Dataset → Option Dataset → ExecResult

/-- One invocation of `func` as observed from the retry loop: the loop's
current batch size together with the datasets passed. -/
structure Call where
  bs : Nat
  x : Dataset
  vd : Option Dataset
deriving DecidableEq

/-- The observable outcome of `run_with_adaptive_batch_size`:
`ok` for a normal return, `reRaised` for a `ResourceExhaustedError`
re-raised at batch size 1, `propagated` for any other exception, and
`unboundHistory` for the `NameError` of `return history` when the `while`
guard is false on entry (batch size 0). -/
inductive RunOutcome where
  | ok (history : Nat)
  | reRaised (e : Nat)
  | propagated (e : Nat)
  | unboundHistory
deriving DecidableEq

/-- The `print` messages emitted by the retry loop, from the format string
of the source. -/
def reduceMessage (batch_size : Nat) : String :=
  "Not enough memory, reduce batch size to " ++ toString batch_size ++ "."

/-- `run_with_adaptive_batch_size(batch_size, func, **fit_kwargs)`:
repeatedly invoke `func` with the current datasets; return its result on
success; on a `ResourceExhaustedError` re-raise when the batch size is
already 1, otherwise halve the batch size by integer division, report the
new size, re-partition both datasets into batches of the new size and
retry; propagate any other exception.  Besides the outcome, the embedding
returns the trace of invocations of `func` and the printed messages. -/
def run_with_adaptive_batch_size (func : Func) (batch_size : Nat)
    (x : Dataset) (validation_data : Option Dataset) :
    RunOutcome × List Call × List String :=
  if h : 0 < batch_size then
    match func x validation_data with
    | .ok history => (.ok history, [⟨batch_size, x, validation_data⟩], [])
    | .failure e => (.propagated e, [⟨batch_size, x, validation_data⟩], [])
    | .resourceExhausted e =>
        if batch_size = 1 then
          (.reRaised e, [⟨batch_size, x, validation_data⟩], [])
        else
          let bs2 := batch_size / 2
          let x2 := rebatch bs2 x
          let vd2 := validation_data.map (rebatch bs2)
          let rest := run_with_adaptive_batch_size func bs2 x2 vd2
          (rest.1, ⟨batch_size, x, validation_data⟩ :: rest.2.1,
            reduceMessage bs2 :: rest.2.2)
  else
    (.unboundHistory, [], [])
termination_by batch_size
decreasing_by
  exact Nat.div_lt_self h (by omega)

/-! ## `to_snake_case`

The two regex substitutions of the source are replayed literally over the
character list, with Python's `re.sub` semantics: scan left to right, at
each position try to match, replace the leftmost match, continue scanning
just past the end of the replaced match (matches never overlap), greedy
`+`. -/

/-- `[A-Z]` of the patterns. -/
def isUpperAZ (c : Char) : Bool := 'A' ≤ c && c ≤ 'Z'

/-- `[a-z]` of the second pattern. -/
def isLowerAZ (c : Char) : Bool := 'a' ≤ c && c ≤ 'z'

/-- `[a-z0-9]` of the first pattern. -/
def isLowerDigit (c : Char) : Bool :=
  ('a' ≤ c && c ≤ 'z') || ('0' ≤ c && c ≤ '9')

/-- First substitution: `re.sub("(.)([A-Z][a-z0-9]+)", r"\1_\2", name)`.
A match is any character other than a newline (`.`), an uppercase letter,
and a maximal nonempty run of `[a-z0-9]`; the replacement inserts `_`
between the first character and the rest. -/
def sub1 : List Char → List Char
  | [] => []
  | [c0] => [c0]
  | [c0, c1] => [c0, c1]
  | c0 :: c1 :: c2 :: rest2 =>
      if h : c0 ≠ '\n' && isUpperAZ c1 && isLowerDigit c2 then
        let run := (c2 :: rest2).takeWhile isLowerDigit
        let rem := (c2 :: rest2).dropWhile isLowerDigit
        c0 :: '_' :: c1 :: (run ++ sub1 rem)
      else
        c0 :: sub1 (c1 :: c2 :: rest2)
termination_by l => l.length
decreasing_by
  · have hc2 : isLowerDigit c2 = true := by
      simp only [Bool.and_eq_true, decide_eq_true_eq] at h
      exact h.2
    have hne : List.dropWhile isLowerDigit (c2 :: rest2) =
        List.dropWhile isLowerDigit rest2 :=
      List.dropWhile_cons_of_pos hc2
    have hle := (List.dropWhile_suffix (l := rest2) isLowerDigit).length_le
    rw [hne]
    simp only [List.length_cons]
    omega
  · simp only [List.length_cons]
    omega

/-- Second substitution: `re.sub("([a-z])([A-Z])", r"\1_\2", s)`:
insert `_` between a lowercase letter and an immediately following
uppercase letter; the scan continues after the two matched characters. -/
def sub2 : List Char → List Char
  | [] => []
  | [c0] => [c0]
  | c0 :: c1 :: rest =>
      if isLowerAZ c0 && isUpperAZ c1 then
        c0 :: '_' :: c1 :: sub2 rest
      else
        c0 :: sub2 (c1 :: rest)

/-- `to_snake_case(name)`: the two ordered substitutions followed by
`.lower()` (ASCII lowercasing). -/
def to_snake_case (name : String) : String :=
  String.mk ((sub2 (sub1 name.toList)).map Char.toLower)

/-! ## Version checks

`check_tf_version` / `check_kt_version` read the installed version string
of an external library, parse it with `packaging.version.parse` and
compare with the minimum.  The external parser is modelled from the spec:
standard dotted-version ordering, i.e. componentwise numeric comparison
of the dot-separated fields, not lexicographic string comparison. -/

/-- A parsed version: the list of its numeric dot-separated components. -/
abbrev Version : Type := List Nat

/-- Split a character stream at every dot, keeping empty groups. -/
def splitDots : List Char → List (List Char)
  | [] => [[]]
  | c :: cs =>
    match splitDots cs with
    | [] => [[c]]
    | g :: gs => if c = '.' then [] :: g :: gs else (c :: g) :: gs

/-- Read a group of decimal digits as a number. -/
def componentToNat (l : List Char) : Nat :=
  l.foldl (fun acc c => acc * 10 + (c.toNat - 48)) 0

/-- Modelled from the spec: `packaging.version.parse` on a plain dotted
release string — split on the dots and read each component as a number
(standard dotted-version ordering, not lexicographic). -/
def parseVersion (s : String) : Version :=
  (splitDots s.toList).map componentToNat

/-- Numeric componentwise (lexicographic over components) order on parsed
versions, the order `packaging.version` gives dotted release versions;
a missing component counts as zero. -/
def versionLt : Version → Version → Bool
  | [], bs => bs.any (fun b => b != 0)
  | _ :: _, [] => false
  | a :: as2, b :: bs =>
      if a < b then true
      else if b < a then false
      else versionLt as2 bs

/-- The warning text of `check_tf_version`, naming the installed version
and the upgrade instruction. -/
def tfWarningMessage (installed : String) : String :=
  "The Tensorflow package version needs to be at least 2.7.0 \n" ++
    "for AutoKeras to run. Currently, your TensorFlow version is \n" ++
    installed ++ ". Please upgrade with \n" ++
    "`$ pip install --upgrade tensorflow`. \n" ++
    "You can use `pip freeze` to check afterwards that everything is ok."

/-- The warning text of `check_kt_version`, naming the installed version
and the upgrade instruction. -/
def ktWarningMessage (installed : String) : String :=
  "The Keras Tuner package version needs to be at least 1.1.0 \n" ++
    "for AutoKeras to run. Currently, your Keras Tuner version is \n" ++
    installed ++ ". Please upgrade with \n" ++
    "`$ pip install --upgrade keras-tuner`. \n" ++
    "You can use `pip freeze` to check afterwards that everything is ok."

/-- `check_tf_version()`: warn (never raise) when the installed
TensorFlow version parses below `2.7.0`.  The result is the list of
warnings emitted by the call. -/
def check_tf_version (installed : String) : List String :=
  if versionLt (parseVersion installed) (parseVersion "2.7.0") then
    [tfWarningMessage installed]
  else
    []

/-- `check_kt_version()`: warn (never raise) when the installed
Keras Tuner version parses below `1.1.0`.  The result is the list of
warnings emitted by the call. -/
def check_kt_version (installed : String) : List String :=
  if versionLt (parseVersion installed) (parseVersion "1.1.0") then
    [ktWarningMessage installed]
  else
    []

/-! ## Concrete callables used to exercise the retry loop -/

/-- A callable that exhausts memory whenever the primary dataset consists
of a single batch and succeeds (with history `7`) once it has been split
into at least two batches. -/
def adaptiveDemoFunc : Func := fun d _ =>
  if 2 ≤ d.length then ExecResult.ok 7 else ExecResult.resourceExhausted 0

/-- A callable that always raises a resource-exhaustion error `3`. -/
def alwaysExhausted : Func := fun _ _ => ExecResult.resourceExhausted 3

/-- A callable that always raises a non-resource-exhaustion error `9`. -/
def alwaysFailing : Func := fun _ _ => ExecResult.failure 9

/-! ## Unfolding lemmas for the retry loop -/

/-- A successful invocation returns immediately: one call, no retries. -/
theorem run_step_ok (func : Func) (bs : Nat) (x : Dataset)
    (vd : Option Dataset) (r : Nat) (hbs : 0 < bs)
    (hf : func x vd = ExecResult.ok r) :
    run_with_adaptive_batch_size func bs x vd =
      (RunOutcome.ok r, [⟨bs, x, vd⟩], []) := by
  rw [run_with_adaptive_batch_size]
  simp [hbs, hf]

/-- A non-resource-exhaustion exception propagates immediately. -/
theorem run_step_failure (func : Func) (bs : Nat) (x : Dataset)
    (vd : Option Dataset) (e : Nat) (hbs : 0 < bs)
    (hf : func x vd = ExecResult.failure e) :
    run_with_adaptive_batch_size func bs x vd =
      (RunOutcome.propagated e, [⟨bs, x, vd⟩], []) := by
  rw [run_with_adaptive_batch_size]
  simp [hbs, hf]

/-- A resource-exhaustion failure at batch size 1 is re-raised unchanged. -/
theorem run_step_floor (func : Func) (x : Dataset) (vd : Option Dataset)
    (e : Nat) (hf : func x vd = ExecResult.resourceExhausted e) :
    run_with_adaptive_batch_size func 1 x vd =
      (RunOutcome.reRaised e, [⟨1, x, vd⟩], []) := by
  rw [run_with_adaptive_batch_size]
  simp [hf]

/-- A resource-exhaustion failure at batch size above 1 halves the batch
size, re-partitions both datasets, reports the new size and retries. -/
theorem run_step_halve (func : Func) (bs : Nat) (x : Dataset)
    (vd : Option Dataset) (e : Nat) (hbs : 1 < bs)
    (hf : func x vd = ExecResult.resourceExhausted e) :
    run_with_adaptive_batch_size func bs x vd =
      ((run_with_adaptive_batch_size func (bs / 2) (rebatch (bs / 2) x)
          (vd.map (rebatch (bs / 2)))).1,
        ⟨bs, x, vd⟩ :: (run_with_adaptive_batch_size func (bs / 2)
          (rebatch (bs / 2) x) (vd.map (rebatch (bs / 2)))).2.1,
        reduceMessage (bs / 2) :: (run_with_adaptive_batch_size func (bs / 2)
          (rebatch (bs / 2) x) (vd.map (rebatch (bs / 2)))).2.2) := by
  rw [run_with_adaptive_batch_size]
  have h0 : 0 < bs := by omega
  have h1 : bs ≠ 1 := by omega
  simp [h0, h1, hf]

/-! ## Claim theorems for the retry loop -/

/-- C1: if `func` raises resource-exhaustion at batch sizes 32, 16 and 8
(that is, on the original datasets and on their re-partitions into batches
of 16 and of 8) and succeeds at batch size 4, then calling with initial
batch size 32 invokes `func` exactly 4 times (3 retries), each retry
halving the batch size by integer division and re-partitioning both the
primary dataset and the validation dataset into batches of the new size,
the final invocation runs at batch size 4, and the call returns that final
invocation's result. -/
theorem run_with_adaptive_batch_size_three_retries (func : Func)
    (x vd : Dataset) (e1 e2 e3 r : Nat)
    (h32 : func x (some vd) = ExecResult.resourceExhausted e1)
    (h16 : func (rebatch 16 x) (some (rebatch 16 vd)) =
      ExecResult.resourceExhausted e2)
    (h8 : func (rebatch 8 (rebatch 16 x)) (some (rebatch 8 (rebatch 16 vd))) =
      ExecResult.resourceExhausted e3)
    (h4 : func (rebatch 4 (rebatch 8 (rebatch 16 x)))
      (some (rebatch 4 (rebatch 8 (rebatch 16 vd)))) = ExecResult.ok r) :
    run_with_adaptive_batch_size func 32 x (some vd) =
      (RunOutcome.ok r,
        [⟨32, x, some vd⟩,
         ⟨16, rebatch 16 x, some (rebatch 16 vd)⟩,
         ⟨8, rebatch 8 (rebatch 16 x), some (rebatch 8 (rebatch 16 vd))⟩,
         ⟨4, rebatch 4 (rebatch 8 (rebatch 16 x)),
           some (rebatch 4 (rebatch 8 (rebatch 16 vd)))⟩],
        [reduceMessage 16, reduceMessage 8, reduceMessage 4]) := by
  have s32 := run_step_halve func 32 x (some vd) e1 (by omega) h32
  have s16 := run_step_halve func 16 (rebatch 16 x) (some (rebatch 16 vd))
    e2 (by omega) h16
  have s8 := run_step_halve func 8 (rebatch 8 (rebatch 16 x))
    (some (rebatch 8 (rebatch 16 vd))) e3 (by omega) h8
  have s4 := run_step_ok func 4 (rebatch 4 (rebatch 8 (rebatch 16 x)))
    (some (rebatch 4 (rebatch 8 (rebatch 16 vd)))) r (by omega) h4
  norm_num [Option.map_some'] at s32 s16 s8
  rw [s32, s16, s8, s4]

/-- C2: a resource-exhaustion failure at batch size 1 re-raises that same
error unchanged after exactly one invocation of `func`: no retries, no
batch-size reduction, no diagnostic output. -/
theorem run_with_adaptive_batch_size_floor_reraises (func : Func)
    (x : Dataset) (vd : Option Dataset) (e : Nat)
    (hf : func x vd = ExecResult.resourceExhausted e) :
    run_with_adaptive_batch_size func 1 x vd =
      (RunOutcome.reRaised e, [⟨1, x, vd⟩], []) :=
  run_step_floor func x vd e hf

/-- C4: an exception of `func` that is not a resource-exhaustion error
propagates immediately, after a single invocation, with no retry and no
change to the batch size, whatever the current batch size is. -/
theorem run_with_adaptive_batch_size_propagates_other_failures (func : Func)
    (bs : Nat) (x : Dataset) (vd : Option Dataset) (e : Nat) (hbs : 0 < bs)
    (hf : func x vd = ExecResult.failure e) :
    run_with_adaptive_batch_size func bs x vd =
      (RunOutcome.propagated e, [⟨bs, x, vd⟩], []) :=
  run_step_failure func bs x vd e hbs hf

/-- C3: for every positive initial batch size, if resource-exhaustion
failures persist, the retry loop terminates: the outcome is a re-raised
failure, the batch-size sequence across the invocations starts at the
initial size, each next size is the integer half of the previous one and
strictly smaller, and the last invocation runs at batch size 1. -/
theorem run_with_adaptive_batch_size_terminates (func : Func)
    (hre : ∀ d v, ∃ e, func d v = ExecResult.resourceExhausted e)
    (bs : Nat) (hbs : 0 < bs) (x : Dataset) (vd : Option Dataset) :
    (∃ e, (run_with_adaptive_batch_size func bs x vd).1 =
      RunOutcome.reRaised e) ∧
    List.Chain' (fun a b => b = a / 2 ∧ b < a)
      (((run_with_adaptive_batch_size func bs x vd).2.1).map Call.bs) ∧
    (((run_with_adaptive_batch_size func bs x vd).2.1).map Call.bs).head? =
      some bs ∧
    (((run_with_adaptive_batch_size func bs x vd).2.1).map
      Call.bs).getLast? = some 1 := by
  induction bs using Nat.strong_induction_on generalizing x vd with
  | _ bs ih =>
    rcases Nat.lt_or_ge 1 bs with hgt | hle
    · obtain ⟨e, hf⟩ := hre x vd
      have hstep := run_step_halve func bs x vd e hgt hf
      obtain ⟨⟨e2, hout⟩, hchain, hhead, hlast⟩ :=
        ih (bs / 2) (Nat.div_lt_self (by omega) (by omega)) (by omega)
          (rebatch (bs / 2) x) (vd.map (rebatch (bs / 2)))
      rw [hstep]
      refine ⟨⟨e2, hout⟩, ?_, ?_, ?_⟩
      · simp only [List.map_cons]
        refine List.chain'_cons'.mpr ⟨?_, hchain⟩
        intro b hb
        rw [hhead] at hb
        simp only [Option.mem_def, Option.some_inj] at hb
        subst hb
        exact ⟨rfl, Nat.div_lt_self (by omega) (by omega)⟩
      · simp
      · rcases hsz : ((run_with_adaptive_batch_size func (bs / 2)
            (rebatch (bs / 2) x) (vd.map (rebatch (bs / 2)))).2.1) with
          _ | ⟨c, cs⟩
        · rw [hsz] at hhead
          simp at hhead
        · rw [hsz] at hlast
          simp only [List.map_cons] at hlast
          simp only [List.map_cons, List.getLast?_cons_cons]
          exact hlast
    · have hbs1 : bs = 1 := by omega
      subst hbs1
      obtain ⟨e, hf⟩ := hre x vd
      rw [run_step_floor func x vd e hf]
      exact ⟨⟨e, rfl⟩, by simp, by simp, by simp⟩

/-- Witness for C1: with a callable that exhausts memory on a single-batch
dataset of five elements and succeeds once it is split, the run from batch
size 32 performs exactly the four invocations at 32, 16, 8 and 4 and
returns the final result. -/
theorem run_with_adaptive_batch_size_three_retries_witness :
    run_with_adaptive_batch_size adaptiveDemoFunc 32 [[0, 1, 2, 3, 4]]
      (some [[0, 1, 2, 3, 4]]) =
      (RunOutcome.ok 7,
        [⟨32, [[0, 1, 2, 3, 4]], some [[0, 1, 2, 3, 4]]⟩,
         ⟨16, rebatch 16 [[0, 1, 2, 3, 4]],
           some (rebatch 16 [[0, 1, 2, 3, 4]])⟩,
         ⟨8, rebatch 8 (rebatch 16 [[0, 1, 2, 3, 4]]),
           some (rebatch 8 (rebatch 16 [[0, 1, 2, 3, 4]]))⟩,
         ⟨4, rebatch 4 (rebatch 8 (rebatch 16 [[0, 1, 2, 3, 4]])),
           some (rebatch 4 (rebatch 8 (rebatch 16 [[0, 1, 2, 3, 4]])))⟩],
        [reduceMessage 16, reduceMessage 8, reduceMessage 4]) :=
  run_with_adaptive_batch_size_three_retries adaptiveDemoFunc
    [[0, 1, 2, 3, 4]] [[0, 1, 2, 3, 4]] 0 0 0 7
    (by simp [adaptiveDemoFunc])
    (by simp [adaptiveDemoFunc, rebatch, Dataset.unbatch, batchStream])
    (by simp [adaptiveDemoFunc, rebatch, Dataset.unbatch, batchStream])
    (by simp [adaptiveDemoFunc, rebatch, Dataset.unbatch, batchStream])

/-- Witness for C2: a callable that always exhausts memory, called at
batch size 1, raises after exactly one invocation. -/
theorem run_with_adaptive_batch_size_floor_reraises_witness :
    run_with_adaptive_batch_size alwaysExhausted 1 [[0, 1]] none =
      (RunOutcome.reRaised 3, [⟨1, [[0, 1]], none⟩], []) :=
  run_with_adaptive_batch_size_floor_reraises alwaysExhausted
    [[0, 1]] none 3 rfl

/-- Witness for C3: a callable that always exhausts memory, called at
batch size 5, ends in a re-raise after a strictly decreasing halving
sequence of batch sizes starting at 5 and ending at 1. -/
theorem run_with_adaptive_batch_size_terminates_witness :
    (∃ e, (run_with_adaptive_batch_size alwaysExhausted 5 [[0, 1]] none).1 =
      RunOutcome.reRaised e) ∧
    List.Chain' (fun a b => b = a / 2 ∧ b < a)
      (((run_with_adaptive_batch_size alwaysExhausted 5
        [[0, 1]] none).2.1).map Call.bs) ∧
    (((run_with_adaptive_batch_size alwaysExhausted 5
      [[0, 1]] none).2.1).map Call.bs).head? = some 5 ∧
    (((run_with_adaptive_batch_size alwaysExhausted 5
      [[0, 1]] none).2.1).map Call.bs).getLast? = some 1 :=
  run_with_adaptive_batch_size_terminates alwaysExhausted
    (fun _ _ => ⟨3, rfl⟩) 5 (by omega) [[0, 1]] none

/-- Witness for C4: a callable that raises a non-resource-exhaustion
error at batch size 7 propagates it after a single invocation. -/
theorem run_with_adaptive_batch_size_propagates_other_failures_witness :
    run_with_adaptive_batch_size alwaysFailing 7 [[0, 1]] none =
      (RunOutcome.propagated 9, [⟨7, [[0, 1]], none⟩], []) :=
  run_with_adaptive_batch_size_propagates_other_failures alwaysFailing
    7 [[0, 1]] none 9 (by omega) rfl

/-! ## Claim theorems for the remaining helpers -/

/-- C5: `validate_num_inputs(inputs, num)` raises a `ValueError` whose
message cites the expected count and the actual flattened count exactly
when the flattened length of `inputs` differs from `num`, and returns
normally exactly when the two agree.  The embedding is a pure function of
its arguments, so the call has no side effects on them. -/
theorem validate_num_inputs_iff (inputs : Nested) (num : Nat) :
    (validate_num_inputs inputs num =
        Except.error (numInputsMessage num inputs.flatten.length) ↔
      inputs.flatten.length ≠ num) ∧
    (validate_num_inputs inputs num = Except.ok () ↔
      inputs.flatten.length = num) := by
  unfold validate_num_inputs
  by_cases h : inputs.flatten.length = num
  · simp [h]
  · simp [h, numInputsMessage]

/-- C9: `get_hyperparameter` returns `value` whenever it is explicitly
provided (non-`None`), returns `hp` otherwise, and the result never
depends on `dtype` (two calls differing only in `dtype`, even across
different `dtype` types, agree). -/
theorem get_hyperparameter_ignores_dtype {α δ₁ δ₂ : Type}
    (value : Option α) (hp : α) (d₁ : δ₁) (d₂ : δ₂) :
    (∀ v, value = some v → get_hyperparameter value hp d₁ = v) ∧
    (value = none → get_hyperparameter value hp d₁ = hp) ∧
    get_hyperparameter value hp d₁ = get_hyperparameter value hp d₂ := by
  refine ⟨?_, ?_, ?_⟩
  · intro v hv
    subst hv
    rfl
  · intro hv
    subst hv
    rfl
  · cases value <;> rfl

/-- Witness for C9: at concrete inputs, a provided value `5` is returned
over the fallback `7` whatever the `dtype`, and an absent value falls
back to `7`. -/
theorem get_hyperparameter_ignores_dtype_witness :
    (get_hyperparameter (some 5) 7 true = 5) ∧
    (get_hyperparameter (none : Option Nat) 7 "float32" = 7) ∧
    get_hyperparameter (some 5) 7 true =
      get_hyperparameter (some 5) 7 "int64" :=
  ⟨(get_hyperparameter_ignores_dtype (some 5) 7 true "int64").1 5 rfl,
   (get_hyperparameter_ignores_dtype (none : Option Nat) 7 "float32"
      true).2.1 rfl,
   (get_hyperparameter_ignores_dtype (some 5) 7 true "int64").2.2⟩

/-- C10: `add_to_hp` on a value that is not a hyperparameter-record
instance returns that value unchanged and performs no operation at all on
the destination registry `hps` (no constructor lookup and no
invocation). -/
theorem add_to_hp_plain_passthrough (v : Nat) (hps : Registry)
    (name : Option String) :
    add_to_hp (HPValue.plain v) hps name = (HPValue.plain v, []) :=
  rfl

/-- Witness for C5: flattening `[leaf 1, leaf 2]` yields two inputs, so
validating against an expected count of 3 fails with the message citing
3 expected and 2 received. -/
theorem validate_num_inputs_iff_witness :
    validate_num_inputs (Nested.node [Nested.leaf 1, Nested.leaf 2]) 3 =
      Except.error (numInputsMessage 3 2) :=
  ((validate_num_inputs_iff (Nested.node [Nested.leaf 1, Nested.leaf 2])
      3).1).mpr (by decide)

/-! ## Character-level facts about ASCII lowercasing -/

/-- `isUpperAZ` holds exactly on the code points 65–90. -/
theorem isUpperAZ_iff (c : Char) :
    isUpperAZ c = true ↔ (65 ≤ c.toNat ∧ c.toNat ≤ 90) := by
  simp only [isUpperAZ, Bool.and_eq_true, decide_eq_true_eq]
  rw [Char.le_def, Char.le_def, UInt32.le_def, UInt32.le_def,
    BitVec.le_def, BitVec.le_def]
  exact Iff.rfl

/-- `Char.ofNat` is faithful on code points below the surrogate range. -/
theorem toNat_ofNat_of_valid (m : Nat) (h : m < 55296) :
    (Char.ofNat m).toNat = m := by
  rw [Char.ofNat, dif_pos (Or.inl h)]
  rfl

/-- Lowercasing leaves any character outside `A`–`Z` unchanged. -/
theorem toLower_eq_self_of_not_upper (c : Char)
    (h : ¬(65 ≤ c.toNat ∧ c.toNat ≤ 90)) : Char.toLower c = c := by
  rw [Char.toLower]
  simp [h]

/-- Lowercasing shifts an `A`–`Z` character by 32 code points. -/
theorem toLower_toNat_of_upper (c : Char)
    (h : 65 ≤ c.toNat ∧ c.toNat ≤ 90) :
    (Char.toLower c).toNat = c.toNat + 32 := by
  rw [Char.toLower]
  simp only [h, and_self, if_pos]
  exact toNat_ofNat_of_valid _ (by omega)

/-- A lowercased character is never in `A`–`Z`. -/
theorem isUpperAZ_toLower (c : Char) :
    isUpperAZ (Char.toLower c) = false := by
  by_cases h : 65 ≤ c.toNat ∧ c.toNat ≤ 90
  · have hn := toLower_toNat_of_upper c h
    rw [Bool.eq_false_iff]
    intro hc
    rw [isUpperAZ_iff] at hc
    omega
  · rw [toLower_eq_self_of_not_upper c h, Bool.eq_false_iff]
    intro hc
    rw [isUpperAZ_iff] at hc
    exact h hc

/-- Lowercasing fixes any character not in `A`–`Z`. -/
theorem toLower_eq_self_of_not_upperAZ (c : Char)
    (h : isUpperAZ c = false) : Char.toLower c = c := by
  apply toLower_eq_self_of_not_upper
  intro hc
  rw [← isUpperAZ_iff] at hc
  rw [h] at hc
  cases hc

/-- The first substitution fixes every string without `A`–`Z`
characters: its pattern requires an uppercase letter. -/
theorem sub1_of_noUpper : ∀ l : List Char,
    (∀ c ∈ l, isUpperAZ c = false) → sub1 l = l := by
  intro l
  induction l with
  | nil => intro _; simp [sub1]
  | cons c0 tail ih =>
    intro h
    have h0 : ∀ c ∈ tail, isUpperAZ c = false :=
      fun c hc => h c (List.mem_cons_of_mem c0 hc)
    rcases tail with _ | ⟨c1, tail1⟩
    · simp [sub1]
    · rcases tail1 with _ | ⟨c2, rest2⟩
      · simp [sub1]
      · have hc1 : isUpperAZ c1 = false := h c1 (by simp)
        have hstep : sub1 (c0 :: c1 :: c2 :: rest2) =
            c0 :: sub1 (c1 :: c2 :: rest2) := by
          simp [sub1, hc1]
        rw [hstep, ih h0]

/-- The second substitution fixes every string without `A`–`Z`
characters: its pattern requires an uppercase letter. -/
theorem sub2_of_noUpper : ∀ l : List Char,
    (∀ c ∈ l, isUpperAZ c = false) → sub2 l = l := by
  intro l
  induction l with
  | nil => intro _; simp [sub2]
  | cons c0 tail ih =>
    intro h
    have h0 : ∀ c ∈ tail, isUpperAZ c = false :=
      fun c hc => h c (List.mem_cons_of_mem c0 hc)
    rcases tail with _ | ⟨c1, tail1⟩
    · simp [sub2]
    · have hc1 : isUpperAZ c1 = false := h c1 (by simp)
      have hstep : sub2 (c0 :: c1 :: tail1) = c0 :: sub2 (c1 :: tail1) := by
        simp [sub2, hc1]
      rw [hstep, ih h0]

/-- C6: `to_snake_case` is exactly the two ordered regex substitutions
followed by lowercasing, and on the cited examples it reproduces the
two-pass regex results: `"CamelCase"` becomes `"camel_case"` and
`"ABCWord"` becomes `"abc_word"` (one separator, inserted before `Word`
by the first pass only). -/
theorem to_snake_case_two_pass :
    (∀ name : String, to_snake_case name =
      String.mk ((sub2 (sub1 name.toList)).map Char.toLower)) ∧
    to_snake_case "CamelCase" = "camel_case" ∧
    to_snake_case "ABCWord" = "abc_word" :=
  ⟨fun _ => rfl,
   by simp [to_snake_case, sub1, sub2, isUpperAZ, isLowerDigit, isLowerAZ],
   by simp [to_snake_case, sub1, sub2, isUpperAZ, isLowerDigit, isLowerAZ]⟩

/-- C7: `to_snake_case` is idempotent on its own output: applying it to
any of its results changes nothing, for every input string.  The output
contains no `A`–`Z` character, so neither regex pass can match and
lowercasing is the identity. -/
theorem to_snake_case_idempotent (s : String) :
    to_snake_case (to_snake_case s) = to_snake_case s := by
  have hno : ∀ c ∈ (sub2 (sub1 s.toList)).map Char.toLower,
      isUpperAZ c = false := by
    intro c hc
    obtain ⟨a, _, rfl⟩ := List.mem_map.mp hc
    exact isUpperAZ_toLower a
  have hmap : ((sub2 (sub1 s.toList)).map Char.toLower).map Char.toLower =
      (sub2 (sub1 s.toList)).map Char.toLower := by
    have hfix : ∀ c ∈ (sub2 (sub1 s.toList)).map Char.toLower,
        Char.toLower c = c :=
      fun c hc => toLower_eq_self_of_not_upperAZ c (hno c hc)
    calc ((sub2 (sub1 s.toList)).map Char.toLower).map Char.toLower
        = ((sub2 (sub1 s.toList)).map Char.toLower).map id :=
          List.map_congr_left hfix
      _ = (sub2 (sub1 s.toList)).map Char.toLower := List.map_id _
  unfold to_snake_case
  have htl : (String.mk ((sub2 (sub1 s.toList)).map Char.toLower)).toList =
      (sub2 (sub1 s.toList)).map Char.toLower := rfl
  rw [htl, sub1_of_noUpper _ hno, sub2_of_noUpper _ hno, hmap]

/-- C8: the version checks never raise.  The minima parse to `[2, 7, 0]`
and `[1, 1, 0]`; whenever the installed version string parses strictly
below the minimum under dotted-version ordering the call emits exactly
one warning, whose text names the installed version, and whenever it
parses at or above the minimum no warning is emitted. -/
theorem version_checks_warn_iff_below_minimum (v : String) :
    (parseVersion "2.7.0" = [2, 7, 0]) ∧
    (parseVersion "1.1.0" = [1, 1, 0]) ∧
    (versionLt (parseVersion v) (parseVersion "2.7.0") = true →
      check_tf_version v = [tfWarningMessage v]) ∧
    (versionLt (parseVersion v) (parseVersion "2.7.0") = false →
      check_tf_version v = []) ∧
    (versionLt (parseVersion v) (parseVersion "1.1.0") = true →
      check_kt_version v = [ktWarningMessage v]) ∧
    (versionLt (parseVersion v) (parseVersion "1.1.0") = false →
      check_kt_version v = []) ∧
    (∃ pre post : String, tfWarningMessage v = pre ++ v ++ post) ∧
    (∃ pre post : String, ktWarningMessage v = pre ++ v ++ post) := by
  refine ⟨by decide, by decide, ?_, ?_, ?_, ?_, ?_, ?_⟩
  · intro h
    unfold check_tf_version
    simp [h]
  · intro h
    unfold check_tf_version
    simp [h]
  · intro h
    unfold check_kt_version
    simp [h]
  · intro h
    unfold check_kt_version
    simp [h]
  · refine ⟨"The Tensorflow package version needs to be at least 2.7.0 \n" ++
      "for AutoKeras to run. Currently, your TensorFlow version is \n",
      ". Please upgrade with \n" ++
      "`$ pip install --upgrade tensorflow`. \n" ++
      "You can use `pip freeze` to check afterwards that everything is ok.",
      ?_⟩
    simp [tfWarningMessage, String.append_assoc]
  · refine ⟨"The Keras Tuner package version needs to be at least 1.1.0 \n" ++
      "for AutoKeras to run. Currently, your Keras Tuner version is \n",
      ". Please upgrade with \n" ++
      "`$ pip install --upgrade keras-tuner`. \n" ++
      "You can use `pip freeze` to check afterwards that everything is ok.",
      ?_⟩
    simp [ktWarningMessage, String.append_assoc]

/-- Witness for C8: TensorFlow `2.6.5` is below the minimum, so exactly
one warning naming it is emitted; Keras Tuner `1.1.0` is at the minimum,
so no warning is emitted. -/
theorem version_checks_warn_iff_below_minimum_witness :
    check_tf_version "2.6.5" = [tfWarningMessage "2.6.5"] ∧
    check_kt_version "1.1.0" = [] :=
  ⟨(version_checks_warn_iff_below_minimum "2.6.5").2.2.1 (by decide),
   (version_checks_warn_iff_below_minimum "1.1.0").2.2.2.2.2.1 (by decide)⟩

end AutokerasUtils
